import Mathlib

/-!
Shallow embedding of the NoMice hand-gesture mouse controller
(`src/utils.py`, `src/hand_tracker.py`, `src/gesture_controller.py`).

Python floats are modelled as real numbers; Python ints that take part in
float arithmetic (camera sizes, margin) are modelled as reals as well, the
scroll sensitivity (only ever used as a whole-number factor) as an integer.
A Python exception is modelled as the `Except.error` branch of `update`.
-/

namespace NoMice

noncomputable section

/-! ### src/utils.py -/

/-- `clamp` from src/utils.py: `max(min_value, min(value, max_value))`. -/
def clamp (value min_value max_value : ℝ) : ℝ :=
  max min_value (min value max_value)

/-- `lerp` from src/utils.py: `start + (end - start) * t`. -/
def lerp (start end' t : ℝ) : ℝ :=
  start + (end' - start) * t

/-- `distance_2d` from src/utils.py: `math.hypot(x2 - x1, y2 - y1)`. -/
def distance_2d (x1 y1 x2 y2 : ℝ) : ℝ :=
  Real.sqrt ((x2 - x1) ^ 2 + (y2 - y1) ^ 2)

/-! ### src/hand_tracker.py data model -/

/-- `LandmarkPoint` from src/hand_tracker.py. -/
structure LandmarkPoint where
  x : ℝ
  y : ℝ
  z : ℝ
  deriving Inhabited

/-- `HandData` from src/hand_tracker.py: the list of landmarks for one hand. -/
structure HandData where
  landmarks : List LandmarkPoint

/-! ### src/gesture_controller.py -/

/-- `SmoothPoint` from src/gesture_controller.py. -/
structure SmoothPoint where
  x : ℝ
  y : ℝ

/-- The constructor arguments of `MouseGestureController.__init__`, together
with the screen size obtained there from `pyautogui.size()`.  `camera_width`,
`camera_height` and `movement_margin` are ints in the source and
`scroll_sensitivity` an int; the former take part in float arithmetic and are
embedded in ℝ. -/
structure Config where
  camera_width : ℝ
  camera_height : ℝ
  smoothing_factor : ℝ
  margin : ℝ
  left_pinch_threshold : ℝ
  right_pinch_threshold : ℝ
  scroll_sensitivity : ℤ
  screen_width : ℝ
  screen_height : ℝ

/-- The mutable fields of `MouseGestureController` (src/gesture_controller.py
lines 46-54). -/
structure CtrlState where
  prev_cursor : SmoothPoint
  scroll_history : List ℝ
  left_click_latched : Bool
  right_click_latched : Bool
  current_mode : String

/-- The per-frame side effects of one `update` call: the `pyautogui.moveTo`
target, whether `pyautogui.click` fired for each button, and the amount passed
to `pyautogui.scroll` (0 when no scroll event was emitted). -/
structure ControlOutput where
  cursor : SmoothPoint
  left_click : Bool
  right_click : Bool
  scroll_delta : ℤ

/-- The exceptions `update` can raise: a landmark index out of range
(CPython `IndexError` on `lm[...]`), or the `ZeroDivisionError` raised by
`_move_cursor` when the active region is degenerate. -/
inductive UpdateError where
  | badLandmarks
  | zeroDivision
  deriving DecidableEq

/-- `MouseGestureController.__init__` state initialisation
(src/gesture_controller.py lines 46-54): cursor at screen centre, empty
scroll history (`deque(maxlen=5)`), both latches clear, mode `"Idle"`.
The constructor performs no validation of its arguments. -/
def init (cfg : Config) : CtrlState where
  prev_cursor := ⟨cfg.screen_width / 2, cfg.screen_height / 2⟩
  scroll_history := []
  left_click_latched := false
  right_click_latched := false
  current_mode := "Idle"

/-- Truncation of a Python float by `int(...)`: toward zero. -/
def truncInt (x : ℝ) : ℤ :=
  if 0 ≤ x then ⌊x⌋ else ⌈x⌉

/-- Append on `deque(maxlen=5)`: when the deque is full the oldest (leftmost)
element is evicted. -/
def appendMax5 (hist : List ℝ) (v : ℝ) : List ℝ :=
  if hist.length < 5 then hist ++ [v] else hist.tail ++ [v]

/-- `MouseGestureController._handle_scroll` (src/gesture_controller.py lines
138-154).  Returns the new scroll history and the amount passed to
`pyautogui.scroll` (0 when fewer than two samples exist or the amount is
suppressed as noise).  `history[-2]` and `history[-1]` are the last two
elements of the deque after the append. -/
def handle_scroll (hist : List ℝ) (sens : ℤ) (index_y middle_y : ℝ) :
    List ℝ × ℤ :=
  let avg_y := (index_y + middle_y) / 2
  let h := appendMax5 hist avg_y
  if h.length < 2 then (h, 0)
  else
    let delta := h.getD (h.length - 2) 0 - h.getD (h.length - 1) 0
    let scroll_amount := truncInt (delta * (sens : ℝ) * 100)
    (h, if 1 < |scroll_amount| then scroll_amount else 0)

/-- The screen target computed by `MouseGestureController._move_cursor`
(src/gesture_controller.py lines 114-129): camera-pixel conversion, clamp to
the active region, linear rescale of the region to the full screen. -/
def cursorTarget (cfg : Config) (finger_x finger_y : ℝ) : ℝ × ℝ :=
  let cam_x := finger_x * cfg.camera_width
  let cam_y := finger_y * cfg.camera_height
  let min_x := cfg.margin
  let max_x := cfg.camera_width - cfg.margin
  let min_y := cfg.margin
  let max_y := cfg.camera_height - cfg.margin
  ((clamp cam_x min_x max_x - min_x) / (max_x - min_x) * cfg.screen_width,
   (clamp cam_y min_y max_y - min_y) / (max_y - min_y) * cfg.screen_height)

/-- `MouseGestureController._move_cursor` (src/gesture_controller.py lines
108-136): when the active region has zero width or height the division in the
rescale raises `ZeroDivisionError` (modelled as `none`); otherwise the target
is blended with the previous cursor by `lerp` and becomes the new cursor. -/
def move_cursor (cfg : Config) (prev : SmoothPoint) (finger_x finger_y : ℝ) :
    Option SmoothPoint :=
  let min_x := cfg.margin
  let max_x := cfg.camera_width - cfg.margin
  let min_y := cfg.margin
  let max_y := cfg.camera_height - cfg.margin
  if max_x - min_x = 0 ∨ max_y - min_y = 0 then none
  else
    some ⟨lerp prev.x (cursorTarget cfg finger_x finger_y).1 cfg.smoothing_factor,
          lerp prev.y (cursorTarget cfg finger_x finger_y).2 cfg.smoothing_factor⟩

/-- `thumb_tip = lm[4]` (src/gesture_controller.py line 61). -/
def thumb_tip (hand : HandData) : LandmarkPoint := hand.landmarks.getD 4 default

/-- `index_tip = lm[8]` (src/gesture_controller.py line 62). -/
def index_tip (hand : HandData) : LandmarkPoint := hand.landmarks.getD 8 default

/-- `index_pip = lm[6]` (src/gesture_controller.py line 63). -/
def index_pip (hand : HandData) : LandmarkPoint := hand.landmarks.getD 6 default

/-- `middle_tip = lm[12]` (src/gesture_controller.py line 64). -/
def middle_tip (hand : HandData) : LandmarkPoint := hand.landmarks.getD 12 default

/-- `middle_pip = lm[10]` (src/gesture_controller.py line 65). -/
def middle_pip (hand : HandData) : LandmarkPoint := hand.landmarks.getD 10 default

/-- `index_extended = index_tip.y < index_pip.y` (line 68). -/
def index_extended (hand : HandData) : Prop :=
  (index_tip hand).y < (index_pip hand).y

/-- `middle_extended = middle_tip.y < middle_pip.y` (line 69). -/
def middle_extended (hand : HandData) : Prop :=
  (middle_tip hand).y < (middle_pip hand).y

/-- `left_pinch_dist = distance_2d(thumb_tip.x, thumb_tip.y, index_tip.x,
index_tip.y)` (line 74). -/
def left_pinch_dist (hand : HandData) : ℝ :=
  distance_2d (thumb_tip hand).x (thumb_tip hand).y
    (index_tip hand).x (index_tip hand).y

/-- `right_pinch_dist = distance_2d(thumb_tip.x, thumb_tip.y, middle_tip.x,
middle_tip.y)` (line 75). -/
def right_pinch_dist (hand : HandData) : ℝ :=
  distance_2d (thumb_tip hand).x (thumb_tip hand).y
    (middle_tip hand).x (middle_tip hand).y

/-- The scroll-mode gate `index_extended and middle_extended and
left_pinch_dist > self.left_pinch_threshold` (line 78). -/
def scroll_active (cfg : Config) (hand : HandData) : Prop :=
  index_extended hand ∧ middle_extended hand ∧
    cfg.left_pinch_threshold < left_pinch_dist hand

open Classical in
/-- `MouseGestureController.update` (src/gesture_controller.py lines 56-106).
The source reads `lm[4]`, `lm[8]`, `lm[6]`, `lm[12]`, `lm[10]`; CPython raises
`IndexError` exactly when the list has fewer than 13 entries (the largest
index read is 12), which the guard reproduces; inside the guard the `getD`
defaults are unreachable.  The scroll branch, the two edge-triggered click
branches and the final mode assignment follow the source order. -/
def update (cfg : Config) (s : CtrlState) (hand : HandData) :
    Except UpdateError (CtrlState × ControlOutput) :=
  if 12 < hand.landmarks.length then
    match move_cursor cfg s.prev_cursor (index_tip hand).x (index_tip hand).y with
    | none => .error .zeroDivision
    | some cursor' =>
      let hs :=
        if scroll_active cfg hand then
          handle_scroll s.scroll_history cfg.scroll_sensitivity
            (index_tip hand).y (middle_tip hand).y
        else (([] : List ℝ), (0 : ℤ))
      let mode1 := if scroll_active cfg hand then "Scroll" else s.current_mode
      let left_fire :=
        left_pinch_dist hand < cfg.left_pinch_threshold ∧
          s.left_click_latched = false
      let left_latched' :=
        if left_fire then true
        else if cfg.left_pinch_threshold ≤ left_pinch_dist hand then false
        else s.left_click_latched
      let mode2 := if left_fire then "Left Click" else mode1
      let right_fire :=
        right_pinch_dist hand < cfg.right_pinch_threshold ∧
          s.right_click_latched = false
      let right_latched' :=
        if right_fire then true
        else if cfg.right_pinch_threshold ≤ right_pinch_dist hand then false
        else s.right_click_latched
      let mode3 := if right_fire then "Right Click" else mode2
      let mode4 :=
        if cfg.left_pinch_threshold ≤ left_pinch_dist hand ∧
            cfg.right_pinch_threshold ≤ right_pinch_dist hand ∧
            ¬(index_extended hand ∧ middle_extended hand) then "Move"
        else mode3
      .ok
        ({ prev_cursor := cursor'
           scroll_history := hs.1
           left_click_latched := left_latched'
           right_click_latched := right_latched'
           current_mode := mode4 },
         { cursor := cursor'
           left_click := decide left_fire
           right_click := decide right_fire
           scroll_delta := hs.2 })
  else .error .badLandmarks

/-! ### Concrete hand frames used to exercise the controller

`mkFrame2 d e` is a full 21-landmark frame whose thumb-index pinch distance is
exactly `d` and thumb-middle pinch distance exactly `e` (the paired landmarks
share a y-coordinate, so `math.hypot` degenerates to an absolute difference),
with both fingers folded (tip below PIP).  `mkScrollFrame g` has both fingers
extended and thumb-index distance `g`. -/

/-- A landmark at `(x, y, 0)`. -/
def pt (x y : ℝ) : LandmarkPoint := ⟨x, y, 0⟩

/-- The zero landmark, used for the 16 joints the controller never reads. -/
def zpt : LandmarkPoint := ⟨0, 0, 0⟩

/-- 21-landmark frame: fingers folded, left pinch distance `d`, right pinch
distance `e`. -/
def mkFrame2 (d e : ℝ) : HandData :=
  ⟨[zpt, zpt, zpt, zpt,
    pt (1/2) (9/10),
    zpt,
    pt (1/2) (1/2),
    zpt,
    pt (1/2 + d) (9/10),
    zpt,
    pt (1/2) (1/2),
    zpt,
    pt (1/2 + e) (9/10),
    zpt, zpt, zpt, zpt, zpt, zpt, zpt, zpt]⟩

/-- 21-landmark frame: both fingers extended, left pinch distance `g`, right
pinch distance `3/5`, average fingertip height `3/10`. -/
def mkScrollFrame (g : ℝ) : HandData :=
  ⟨[zpt, zpt, zpt, zpt,
    pt (1/10) (3/10),
    zpt,
    pt (1/10 + g) (1/2),
    zpt,
    pt (1/10 + g) (3/10),
    zpt,
    pt (7/10) (1/2),
    zpt,
    pt (7/10) (3/10),
    zpt, zpt, zpt, zpt, zpt, zpt, zpt, zpt]⟩

/-- The configuration of src/main.py lines 78-86 (camera 1280x720, smoothing
0.25, pinch thresholds 0.035 / 0.04) with margin 100 (the controller default)
and a 1920x1080 screen. -/
def cfg0 : Config :=
  ⟨1280, 720, 1/4, 100, 0.035, 0.04, 35, 1920, 1080⟩

/-- A configuration whose margin makes the active region zero-width:
`2 * 320 = 640 = camera_width`. -/
def cfgBad : Config :=
  ⟨640, 480, 1/4, 320, 0.035, 0.04, 35, 1920, 1080⟩

/-- A frame with only 13 of the expected 21 landmarks (indices 0-12); the five
joints the controller reads are all present. -/
def frame13 : HandData :=
  ⟨[zpt, zpt, zpt, zpt,
    pt (1/2) (9/10),
    zpt,
    pt (1/2) (1/2),
    zpt,
    pt (1/2) (9/10),
    zpt,
    pt (1/2) (1/2),
    zpt,
    pt (9/10) (9/10)]⟩

/-- A frame with only 5 landmarks: even the joints up to index 12 that the
controller reads are missing. -/
def frame5 : HandData := ⟨[zpt, zpt, zpt, zpt, zpt]⟩

/-- The cursor produced by `_move_cursor` when the active region is
non-degenerate: the lerp blend of the previous cursor with the mapped
target of the index fingertip. -/
def next_cursor (cfg : Config) (s : CtrlState) (hand : HandData) : SmoothPoint :=
  ⟨lerp s.prev_cursor.x
      (cursorTarget cfg (index_tip hand).x (index_tip hand).y).1
      cfg.smoothing_factor,
   lerp s.prev_cursor.y
      (cursorTarget cfg (index_tip hand).x (index_tip hand).y).2
      cfg.smoothing_factor⟩

/-- Left-click outputs of a sequence of `update` calls (test driver for the
edge-trigger trace properties; stops at a raised error). -/
noncomputable def runLeftClicks (cfg : Config) :
    CtrlState → List HandData → List Bool
  | _, [] => []
  | s, hand :: rest =>
    match update cfg s hand with
    | .ok p => p.2.left_click :: runLeftClicks cfg p.1 rest
    | .error _ => []

/-- The raw scroll amount `int(delta * self.scroll_sensitivity * 100)`
computed by `_handle_scroll` on the post-append history
(src/gesture_controller.py lines 146-150), before noise suppression. -/
def scroll_amount (hist : List ℝ) (sens : ℤ) (index_y middle_y : ℝ) : ℤ :=
  let h := appendMax5 hist ((index_y + middle_y) / 2)
  truncInt ((h.getD (h.length - 2) 0 - h.getD (h.length - 1) 0)
    * (sens : ℝ) * 100)

/-- The state after one `update`, keeping the old state when an error is
raised (driver used to iterate `update` on a fixed frame). -/
noncomputable def updateState (cfg : Config) (hand : HandData)
    (s : CtrlState) : CtrlState :=
  match update cfg s hand with
  | .ok p => p.1
  | .error _ => s

/-- The controller state after `n` `update` calls on the fixed frame `hand`,
starting from the freshly constructed state. -/
noncomputable def iterState (cfg : Config) (hand : HandData) (n : ℕ) :
    CtrlState :=
  (updateState cfg hand)^[n] (init cfg)

/-! ### Elementary lemmas about the geometry utilities -/

theorem distance_2d_same_y (x1 y x2 : ℝ) :
    distance_2d x1 y x2 y = |x2 - x1| := by
  rw [distance_2d, sub_self]
  rw [show (x2 - x1) ^ 2 + (0 : ℝ) ^ 2 = (x2 - x1) ^ 2 by ring]
  exact Real.sqrt_sq_eq_abs _

theorem clamp_le (v lo hi : ℝ) (h : lo ≤ hi) : clamp v lo hi ≤ hi := by
  rw [clamp]
  exact max_le h (min_le_right _ _)

theorem le_clamp (v lo hi : ℝ) : lo ≤ clamp v lo hi := le_max_left _ _

/-! ### Landmark values of the concrete frames -/

theorem mkFrame2_length (d e : ℝ) : (mkFrame2 d e).landmarks.length = 21 := rfl

theorem index_tip_mkFrame2 (d e : ℝ) :
    index_tip (mkFrame2 d e) = pt (1/2 + d) (9/10) := rfl

theorem left_pinch_dist_mkFrame2 (d e : ℝ) (hd : 0 ≤ d) :
    left_pinch_dist (mkFrame2 d e) = d := by
  show distance_2d (1/2) (9/10) (1/2 + d) (9/10) = d
  rw [distance_2d_same_y, add_sub_cancel_left, abs_of_nonneg hd]

theorem right_pinch_dist_mkFrame2 (d e : ℝ) (he : 0 ≤ e) :
    right_pinch_dist (mkFrame2 d e) = e := by
  show distance_2d (1/2) (9/10) (1/2 + e) (9/10) = e
  rw [distance_2d_same_y, add_sub_cancel_left, abs_of_nonneg he]

theorem not_extended_mkFrame2 (d e : ℝ) :
    ¬(index_extended (mkFrame2 d e) ∧ middle_extended (mkFrame2 d e)) := by
  intro h
  exact absurd (show (9 : ℝ)/10 < 1/2 from h.1) (by norm_num)

theorem mkScrollFrame_length (g : ℝ) :
    (mkScrollFrame g).landmarks.length = 21 := rfl

theorem index_tip_mkScrollFrame (g : ℝ) :
    index_tip (mkScrollFrame g) = pt (1/10 + g) (3/10) := rfl

theorem middle_tip_mkScrollFrame (g : ℝ) :
    middle_tip (mkScrollFrame g) = pt (7/10) (3/10) := rfl

theorem left_pinch_dist_mkScrollFrame (g : ℝ) (hg : 0 ≤ g) :
    left_pinch_dist (mkScrollFrame g) = g := by
  show distance_2d (1/10) (3/10) (1/10 + g) (3/10) = g
  rw [distance_2d_same_y, add_sub_cancel_left, abs_of_nonneg hg]

theorem right_pinch_dist_mkScrollFrame (g : ℝ) :
    right_pinch_dist (mkScrollFrame g) = 3/5 := by
  show distance_2d (1/10) (3/10) (7/10) (3/10) = 3/5
  rw [distance_2d_same_y]
  rw [show (7 : ℝ)/10 - 1/10 = 3/5 by norm_num]
  rw [abs_of_nonneg (by norm_num : (0:ℝ) ≤ 3/5)]

theorem extended_mkScrollFrame (g : ℝ) :
    index_extended (mkScrollFrame g) ∧ middle_extended (mkScrollFrame g) :=
  ⟨show (3 : ℝ)/10 < 1/2 by norm_num, show (3 : ℝ)/10 < 1/2 by norm_num⟩

/-! ### Characterisations of one `update` step -/

theorem move_cursor_eq (cfg : Config) (s : CtrlState) (hand : HandData)
    (hdx : cfg.camera_width - cfg.margin - cfg.margin ≠ 0)
    (hdy : cfg.camera_height - cfg.margin - cfg.margin ≠ 0) :
    move_cursor cfg s.prev_cursor (index_tip hand).x (index_tip hand).y
      = some (next_cursor cfg s hand) := by
  rw [move_cursor]
  rw [if_neg (by push_neg; exact ⟨hdx, hdy⟩)]
  rfl

open Classical in
/-- One `update` step on a frame where the two fingers are not both extended:
the scroll branch clears the history and emits no scroll; the click branches
and the mode label depend only on the two pinch distances and the latches. -/
theorem update_char_no_scroll (cfg : Config) (s : CtrlState) (hand : HandData)
    (hlen : 12 < hand.landmarks.length)
    (hne : ¬(index_extended hand ∧ middle_extended hand))
    (hdx : cfg.camera_width - cfg.margin - cfg.margin ≠ 0)
    (hdy : cfg.camera_height - cfg.margin - cfg.margin ≠ 0) :
    update cfg s hand = .ok
      ({ prev_cursor := next_cursor cfg s hand
         scroll_history := []
         left_click_latched :=
           if left_pinch_dist hand < cfg.left_pinch_threshold ∧
               s.left_click_latched = false then true
           else if cfg.left_pinch_threshold ≤ left_pinch_dist hand then false
           else s.left_click_latched
         right_click_latched :=
           if right_pinch_dist hand < cfg.right_pinch_threshold ∧
               s.right_click_latched = false then true
           else if cfg.right_pinch_threshold ≤ right_pinch_dist hand then false
           else s.right_click_latched
         current_mode :=
           if cfg.left_pinch_threshold ≤ left_pinch_dist hand ∧
               cfg.right_pinch_threshold ≤ right_pinch_dist hand then "Move"
           else if right_pinch_dist hand < cfg.right_pinch_threshold ∧
               s.right_click_latched = false then "Right Click"
           else if left_pinch_dist hand < cfg.left_pinch_threshold ∧
               s.left_click_latched = false then "Left Click"
           else s.current_mode },
       { cursor := next_cursor cfg s hand
         left_click := decide (left_pinch_dist hand < cfg.left_pinch_threshold ∧
           s.left_click_latched = false)
         right_click := decide (right_pinch_dist hand < cfg.right_pinch_threshold ∧
           s.right_click_latched = false)
         scroll_delta := 0 }) := by
  have hsa : ¬scroll_active cfg hand := fun h => hne ⟨h.1, h.2.1⟩
  unfold update
  rw [if_pos hlen, move_cursor_eq cfg s hand hdx hdy]
  simp only [if_neg hsa, hne, iff_false, not_false_iff, and_true, eq_self_iff_true]

open Classical in
/-- One `update` step on a frame where both fingers are extended: scroll runs
(appending the average fingertip height) exactly when the left pinch distance
exceeds its threshold, otherwise the history is cleared; the mode is never set
to `"Move"`. -/
theorem update_char_scroll (cfg : Config) (s : CtrlState) (hand : HandData)
    (hlen : 12 < hand.landmarks.length)
    (hb : index_extended hand ∧ middle_extended hand)
    (hdx : cfg.camera_width - cfg.margin - cfg.margin ≠ 0)
    (hdy : cfg.camera_height - cfg.margin - cfg.margin ≠ 0) :
    update cfg s hand = .ok
      ({ prev_cursor := next_cursor cfg s hand
         scroll_history :=
           if cfg.left_pinch_threshold < left_pinch_dist hand then
             (handle_scroll s.scroll_history cfg.scroll_sensitivity
               (index_tip hand).y (middle_tip hand).y).1
           else []
         left_click_latched :=
           if left_pinch_dist hand < cfg.left_pinch_threshold ∧
               s.left_click_latched = false then true
           else if cfg.left_pinch_threshold ≤ left_pinch_dist hand then false
           else s.left_click_latched
         right_click_latched :=
           if right_pinch_dist hand < cfg.right_pinch_threshold ∧
               s.right_click_latched = false then true
           else if cfg.right_pinch_threshold ≤ right_pinch_dist hand then false
           else s.right_click_latched
         current_mode :=
           if right_pinch_dist hand < cfg.right_pinch_threshold ∧
               s.right_click_latched = false then "Right Click"
           else if left_pinch_dist hand < cfg.left_pinch_threshold ∧
               s.left_click_latched = false then "Left Click"
           else if cfg.left_pinch_threshold < left_pinch_dist hand then "Scroll"
           else s.current_mode },
       { cursor := next_cursor cfg s hand
         left_click := decide (left_pinch_dist hand < cfg.left_pinch_threshold ∧
           s.left_click_latched = false)
         right_click := decide (right_pinch_dist hand < cfg.right_pinch_threshold ∧
           s.right_click_latched = false)
         scroll_delta :=
           if cfg.left_pinch_threshold < left_pinch_dist hand then
             (handle_scroll s.scroll_history cfg.scroll_sensitivity
               (index_tip hand).y (middle_tip hand).y).2
           else 0 }) := by
  have hsa : scroll_active cfg hand ↔
      cfg.left_pinch_threshold < left_pinch_dist hand :=
    ⟨fun h => h.2.2, fun h => ⟨hb.1, hb.2, h⟩⟩
  have hmode : ¬(cfg.left_pinch_threshold ≤ left_pinch_dist hand ∧
      cfg.right_pinch_threshold ≤ right_pinch_dist hand ∧
      ¬(index_extended hand ∧ middle_extended hand)) :=
    fun h => h.2.2 hb
  unfold update
  rw [if_pos hlen, move_cursor_eq cfg s hand hdx hdy]
  simp only [hsa, if_neg hmode, apply_ite Prod.fst, apply_ite Prod.snd]

open Classical in
/-- Full characterisation of a successful `update` call: the landmark list was
long enough, and the new state and output are the canonical records determined
by the frame, the previous latches and the scroll history. -/
theorem update_ok_elim {cfg : Config} {s : CtrlState} {hand : HandData}
    {s' : CtrlState} {out : ControlOutput}
    (h : update cfg s hand = .ok (s', out)) :
    12 < hand.landmarks.length ∧
    s' = { prev_cursor := next_cursor cfg s hand
           scroll_history :=
             if scroll_active cfg hand then
               (handle_scroll s.scroll_history cfg.scroll_sensitivity
                 (index_tip hand).y (middle_tip hand).y).1
             else []
           left_click_latched :=
             if left_pinch_dist hand < cfg.left_pinch_threshold ∧
                 s.left_click_latched = false then true
             else if cfg.left_pinch_threshold ≤ left_pinch_dist hand then false
             else s.left_click_latched
           right_click_latched :=
             if right_pinch_dist hand < cfg.right_pinch_threshold ∧
                 s.right_click_latched = false then true
             else if cfg.right_pinch_threshold ≤ right_pinch_dist hand then false
             else s.right_click_latched
           current_mode :=
             if cfg.left_pinch_threshold ≤ left_pinch_dist hand ∧
                 cfg.right_pinch_threshold ≤ right_pinch_dist hand ∧
                 ¬(index_extended hand ∧ middle_extended hand) then "Move"
             else if right_pinch_dist hand < cfg.right_pinch_threshold ∧
                 s.right_click_latched = false then "Right Click"
             else if left_pinch_dist hand < cfg.left_pinch_threshold ∧
                 s.left_click_latched = false then "Left Click"
             else if scroll_active cfg hand then "Scroll"
             else s.current_mode } ∧
    out = { cursor := next_cursor cfg s hand
            left_click := decide (left_pinch_dist hand < cfg.left_pinch_threshold ∧
              s.left_click_latched = false)
            right_click := decide (right_pinch_dist hand < cfg.right_pinch_threshold ∧
              s.right_click_latched = false)
            scroll_delta :=
              if scroll_active cfg hand then
                (handle_scroll s.scroll_history cfg.scroll_sensitivity
                  (index_tip hand).y (middle_tip hand).y).2
              else 0 } := by
  unfold update at h
  split at h
  · rename_i hlen
    split at h
    · exact absurd h (by simp)
    · rename_i c heq
      rw [move_cursor] at heq
      split at heq
      · exact absurd heq (by simp)
      · rw [Option.some.injEq] at heq
        rw [Except.ok.injEq, Prod.mk.injEq] at h
        obtain ⟨h1, h2⟩ := h
        subst heq
        refine ⟨hlen, ?_, ?_⟩
        · rw [← h1]
          simp only [apply_ite Prod.fst]
          rfl
        · rw [← h2]
          simp only [apply_ite Prod.snd]
          rfl
  · exact absurd h (by simp)

/-- One `update` step on `mkFrame2 d e`: the pinch distances are `d` and `e`,
no scroll runs, and clicks/latches follow the edge-trigger rules. -/
theorem update_mkFrame2 (cfg : Config) (s : CtrlState) (d e : ℝ)
    (hd : 0 ≤ d) (he : 0 ≤ e)
    (hdx : cfg.camera_width - cfg.margin - cfg.margin ≠ 0)
    (hdy : cfg.camera_height - cfg.margin - cfg.margin ≠ 0) :
    update cfg s (mkFrame2 d e) = .ok
      ({ prev_cursor := next_cursor cfg s (mkFrame2 d e)
         scroll_history := []
         left_click_latched :=
           if d < cfg.left_pinch_threshold ∧ s.left_click_latched = false then
             true
           else if cfg.left_pinch_threshold ≤ d then false
           else s.left_click_latched
         right_click_latched :=
           if e < cfg.right_pinch_threshold ∧ s.right_click_latched = false then
             true
           else if cfg.right_pinch_threshold ≤ e then false
           else s.right_click_latched
         current_mode :=
           if cfg.left_pinch_threshold ≤ d ∧ cfg.right_pinch_threshold ≤ e then
             "Move"
           else if e < cfg.right_pinch_threshold ∧
               s.right_click_latched = false then "Right Click"
           else if d < cfg.left_pinch_threshold ∧
               s.left_click_latched = false then "Left Click"
           else s.current_mode },
       { cursor := next_cursor cfg s (mkFrame2 d e)
         left_click :=
           decide (d < cfg.left_pinch_threshold ∧ s.left_click_latched = false)
         right_click :=
           decide (e < cfg.right_pinch_threshold ∧ s.right_click_latched = false)
         scroll_delta := 0 }) := by
  have h := update_char_no_scroll cfg s (mkFrame2 d e)
    (by rw [mkFrame2_length]; norm_num) (not_extended_mkFrame2 d e) hdx hdy
  rw [left_pinch_dist_mkFrame2 d e hd, right_pinch_dist_mkFrame2 d e he] at h
  exact h

theorem runLeftClicks_nil (cfg : Config) (s : CtrlState) :
    runLeftClicks cfg s [] = [] := rfl

theorem runLeftClicks_cons_ok {cfg : Config} {s : CtrlState} {hand : HandData}
    {rest : List HandData} {s' : CtrlState} {out : ControlOutput}
    (hupd : update cfg s hand = .ok (s', out)) :
    runLeftClicks cfg s (hand :: rest)
      = out.left_click :: runLeftClicks cfg s' rest := by
  have hstep : runLeftClicks cfg s (hand :: rest)
      = match update cfg s hand with
        | .ok p => p.2.left_click :: runLeftClicks cfg p.1 rest
        | .error _ => [] := rfl
  rw [hstep, hupd]

/-! ### Scroll helper lemmas -/

theorem appendMax5_length (hist : List ℝ) (v : ℝ) (h : hist.length ≤ 5) :
    (appendMax5 hist v).length ≤ 5 := by
  rw [appendMax5]
  split
  · rename_i hlt
    simp only [List.length_append, List.length_cons, List.length_nil]
    omega
  · rename_i hge
    simp only [List.length_append, List.length_tail, List.length_cons,
      List.length_nil]
    omega

theorem handle_scroll_fst (hist : List ℝ) (sens : ℤ) (iy my : ℝ) :
    (handle_scroll hist sens iy my).1 = appendMax5 hist ((iy + my) / 2) := by
  simp only [handle_scroll]
  split <;> rfl

theorem handle_scroll_snd (hist : List ℝ) (sens : ℤ) (iy my : ℝ) :
    (handle_scroll hist sens iy my).2 =
      if (appendMax5 hist ((iy + my) / 2)).length < 2 then 0
      else if 1 < |scroll_amount hist sens iy my| then
        scroll_amount hist sens iy my
      else 0 := by
  simp only [handle_scroll, scroll_amount]
  split <;> rfl

theorem update_ok_of_nondegenerate (cfg : Config) (s : CtrlState)
    (hand : HandData) (hlen : 12 < hand.landmarks.length)
    (hdx : cfg.camera_width - cfg.margin - cfg.margin ≠ 0)
    (hdy : cfg.camera_height - cfg.margin - cfg.margin ≠ 0) :
    ∃ p, update cfg s hand = .ok p := by
  unfold update
  rw [if_pos hlen, move_cursor_eq cfg s hand hdx hdy]
  exact ⟨_, rfl⟩

/-- One `update` step on `mkScrollFrame g`: scroll runs exactly when
`g` exceeds the left threshold, the average fingertip height is `3/10`, and
the mode is never set to `"Move"`. -/
theorem update_mkScrollFrame (cfg : Config) (s : CtrlState) (g : ℝ)
    (hg : 0 ≤ g)
    (hdx : cfg.camera_width - cfg.margin - cfg.margin ≠ 0)
    (hdy : cfg.camera_height - cfg.margin - cfg.margin ≠ 0) :
    update cfg s (mkScrollFrame g) = .ok
      ({ prev_cursor := next_cursor cfg s (mkScrollFrame g)
         scroll_history :=
           if cfg.left_pinch_threshold < g then
             (handle_scroll s.scroll_history cfg.scroll_sensitivity
               (3/10) (3/10)).1
           else []
         left_click_latched :=
           if g < cfg.left_pinch_threshold ∧ s.left_click_latched = false then
             true
           else if cfg.left_pinch_threshold ≤ g then false
           else s.left_click_latched
         right_click_latched :=
           if (3/5 : ℝ) < cfg.right_pinch_threshold ∧
               s.right_click_latched = false then true
           else if cfg.right_pinch_threshold ≤ (3/5 : ℝ) then false
           else s.right_click_latched
         current_mode :=
           if (3/5 : ℝ) < cfg.right_pinch_threshold ∧
               s.right_click_latched = false then "Right Click"
           else if g < cfg.left_pinch_threshold ∧
               s.left_click_latched = false then "Left Click"
           else if cfg.left_pinch_threshold < g then "Scroll"
           else s.current_mode },
       { cursor := next_cursor cfg s (mkScrollFrame g)
         left_click :=
           decide (g < cfg.left_pinch_threshold ∧ s.left_click_latched = false)
         right_click :=
           decide ((3/5 : ℝ) < cfg.right_pinch_threshold ∧
             s.right_click_latched = false)
         scroll_delta :=
           if cfg.left_pinch_threshold < g then
             (handle_scroll s.scroll_history cfg.scroll_sensitivity
               (3/10) (3/10)).2
           else 0 }) := by
  have h := update_char_scroll cfg s (mkScrollFrame g)
    (by rw [mkScrollFrame_length]; norm_num) (extended_mkScrollFrame g)
    hdx hdy
  rw [left_pinch_dist_mkScrollFrame g hg, right_pinch_dist_mkScrollFrame g,
    index_tip_mkScrollFrame, middle_tip_mkScrollFrame] at h
  simp only [pt] at h
  exact h

/-! ### Claims -/

/-- C1: a left-click event fires only on a frame where the thumb-index pinch
distance is below the left threshold and the left latch is clear; the latch
clears exactly when the distance is at or above the threshold (so holding a
pinch never repeat-fires); and on the pinch-distance trace
`[0.05, 0.02, 0.02, 0.02, 0.05, 0.02]` with threshold 0.035 exactly two
left-click events fire, on the 2nd and 6th samples. -/
theorem claim1_left_click_edge_trigger (cfg : Config)
    (hth : cfg.left_pinch_threshold = 0.035)
    (hdx : cfg.camera_width - cfg.margin - cfg.margin ≠ 0)
    (hdy : cfg.camera_height - cfg.margin - cfg.margin ≠ 0) :
    (∀ (cfg' : Config) (s : CtrlState) (hand : HandData) (s' : CtrlState)
        (out : ControlOutput), update cfg' s hand = .ok (s', out) →
      (out.left_click = true ↔
        (left_pinch_dist hand < cfg'.left_pinch_threshold ∧
          s.left_click_latched = false)) ∧
      (s'.left_click_latched = false ↔
        cfg'.left_pinch_threshold ≤ left_pinch_dist hand)) ∧
    runLeftClicks cfg (init cfg)
      [mkFrame2 (1/20) (2/5), mkFrame2 (1/50) (2/5), mkFrame2 (1/50) (2/5),
       mkFrame2 (1/50) (2/5), mkFrame2 (1/20) (2/5), mkFrame2 (1/50) (2/5)]
      = [false, true, false, false, false, true] := by
  constructor
  · intro cfg' s hand s' out h
    obtain ⟨-, hs', hout⟩ := update_ok_elim h
    subst hs' hout
    constructor
    · simp
    · by_cases hQ : cfg'.left_pinch_threshold ≤ left_pinch_dist hand
      · have hnp : ¬(left_pinch_dist hand < cfg'.left_pinch_threshold ∧
            s.left_click_latched = false) :=
          fun hc => absurd hc.1 (not_lt.mpr hQ)
        simp [hnp, hQ]
      · by_cases hl : s.left_click_latched = false
        · simp [hl, hQ, not_le.mp hQ]
        · simp [hl, hQ]
  · rw [runLeftClicks_cons_ok (update_mkFrame2 cfg (init cfg) (1/20) (2/5)
      (by norm_num) (by norm_num) hdx hdy)]
    norm_num [hth, init, next_cursor]
    rw [runLeftClicks_cons_ok (update_mkFrame2 cfg _ (1/50) (2/5)
      (by norm_num) (by norm_num) hdx hdy)]
    norm_num [hth, next_cursor]
    rw [runLeftClicks_cons_ok (update_mkFrame2 cfg _ (1/50) (2/5)
      (by norm_num) (by norm_num) hdx hdy)]
    norm_num [hth, next_cursor]
    rw [runLeftClicks_cons_ok (update_mkFrame2 cfg _ (1/50) (2/5)
      (by norm_num) (by norm_num) hdx hdy)]
    norm_num [hth, next_cursor]
    rw [runLeftClicks_cons_ok (update_mkFrame2 cfg _ (1/20) (2/5)
      (by norm_num) (by norm_num) hdx hdy)]
    norm_num [hth, next_cursor]
    rw [runLeftClicks_cons_ok (update_mkFrame2 cfg _ (1/50) (2/5)
      (by norm_num) (by norm_num) hdx hdy)]
    norm_num [hth, next_cursor]
    exact runLeftClicks_nil cfg _

/-- Witness for C1 at the concrete configuration `cfg0`. -/
theorem claim1_left_click_edge_trigger_witness :
    (cfg0.left_pinch_threshold = 0.035 ∧
     cfg0.camera_width - cfg0.margin - cfg0.margin ≠ 0 ∧
     cfg0.camera_height - cfg0.margin - cfg0.margin ≠ 0) ∧
    ((∀ (cfg' : Config) (s : CtrlState) (hand : HandData) (s' : CtrlState)
        (out : ControlOutput), update cfg' s hand = .ok (s', out) →
      (out.left_click = true ↔
        (left_pinch_dist hand < cfg'.left_pinch_threshold ∧
          s.left_click_latched = false)) ∧
      (s'.left_click_latched = false ↔
        cfg'.left_pinch_threshold ≤ left_pinch_dist hand)) ∧
    runLeftClicks cfg0 (init cfg0)
      [mkFrame2 (1/20) (2/5), mkFrame2 (1/50) (2/5), mkFrame2 (1/50) (2/5),
       mkFrame2 (1/50) (2/5), mkFrame2 (1/20) (2/5), mkFrame2 (1/50) (2/5)]
      = [false, true, false, false, false, true]) :=
  ⟨⟨rfl, by norm_num [cfg0], by norm_num [cfg0]⟩,
   claim1_left_click_edge_trigger cfg0 rfl
     (by norm_num [cfg0]) (by norm_num [cfg0])⟩

/-- C9: at construction the cursor is the screen centre, the scroll history is
empty, both latches are clear and the mode label is `"Idle"`; consequently a
first `update` whose pinch distance is below the threshold fires a left click
immediately. -/
theorem claim9_initial_state (cfg : Config)
    (hdx : cfg.camera_width - cfg.margin - cfg.margin ≠ 0)
    (hdy : cfg.camera_height - cfg.margin - cfg.margin ≠ 0)
    (d : ℝ) (hd : 0 ≤ d) (hlt : d < cfg.left_pinch_threshold) :
    (init cfg).prev_cursor = ⟨cfg.screen_width / 2, cfg.screen_height / 2⟩ ∧
    (init cfg).scroll_history = [] ∧
    (init cfg).left_click_latched = false ∧
    (init cfg).right_click_latched = false ∧
    (init cfg).current_mode = "Idle" ∧
    ∃ s' out, update cfg (init cfg) (mkFrame2 d (2/5)) = .ok (s', out) ∧
      out.left_click = true := by
  refine ⟨rfl, rfl, rfl, rfl, rfl, ?_⟩
  refine ⟨_, _, update_mkFrame2 cfg (init cfg) d (2/5) hd (by norm_num) hdx hdy,
    ?_⟩
  simp [init, hlt]

/-- Witness for C9 at `cfg0` with pinch distance `1/50 = 0.02`. -/
theorem claim9_initial_state_witness :
    (cfg0.camera_width - cfg0.margin - cfg0.margin ≠ 0 ∧
     cfg0.camera_height - cfg0.margin - cfg0.margin ≠ 0 ∧
     (0 : ℝ) ≤ 1/50 ∧ (1/50 : ℝ) < cfg0.left_pinch_threshold) ∧
    ((init cfg0).prev_cursor = ⟨cfg0.screen_width / 2, cfg0.screen_height / 2⟩ ∧
    (init cfg0).scroll_history = [] ∧
    (init cfg0).left_click_latched = false ∧
    (init cfg0).right_click_latched = false ∧
    (init cfg0).current_mode = "Idle" ∧
    ∃ s' out, update cfg0 (init cfg0) (mkFrame2 (1/50) (2/5)) = .ok (s', out) ∧
      out.left_click = true) :=
  ⟨⟨by norm_num [cfg0], by norm_num [cfg0], by norm_num,
    by norm_num [cfg0]⟩,
   claim9_initial_state cfg0 (by norm_num [cfg0]) (by norm_num [cfg0])
     (1/50) (by norm_num) (by norm_num [cfg0])⟩

/-- C10: on a frame whose thumb tip coincides with both the index tip and the
middle tip (both pinch distances 0), a single `update` from the initial state
fires a left click and a right click in the same frame: the two latch
mechanisms are independent. -/
theorem claim10_simultaneous_clicks (cfg : Config)
    (hL : 0 < cfg.left_pinch_threshold) (hR : 0 < cfg.right_pinch_threshold)
    (hdx : cfg.camera_width - cfg.margin - cfg.margin ≠ 0)
    (hdy : cfg.camera_height - cfg.margin - cfg.margin ≠ 0) :
    ∃ s' out, update cfg (init cfg) (mkFrame2 0 0) = .ok (s', out) ∧
      out.left_click = true ∧ out.right_click = true := by
  refine ⟨_, _, update_mkFrame2 cfg (init cfg) 0 0 le_rfl le_rfl hdx hdy,
    ?_, ?_⟩
  · simp [init, hL]
  · simp [init, hR]

/-- Witness for C10 at `cfg0`. -/
theorem claim10_simultaneous_clicks_witness :
    (0 < cfg0.left_pinch_threshold ∧ 0 < cfg0.right_pinch_threshold ∧
     cfg0.camera_width - cfg0.margin - cfg0.margin ≠ 0 ∧
     cfg0.camera_height - cfg0.margin - cfg0.margin ≠ 0) ∧
    (∃ s' out, update cfg0 (init cfg0) (mkFrame2 0 0) = .ok (s', out) ∧
      out.left_click = true ∧ out.right_click = true) :=
  ⟨⟨by norm_num [cfg0], by norm_num [cfg0], by norm_num [cfg0],
    by norm_num [cfg0]⟩,
   claim10_simultaneous_clicks cfg0 (by norm_num [cfg0]) (by norm_num [cfg0])
     (by norm_num [cfg0]) (by norm_num [cfg0])⟩

/-- C2 counterexample: the constructor accepts `cfgBad`, whose margin makes
the active region zero-width (`2 * 320 = 640 = camera_width`), producing a
normal initial state — no `ConfigurationError` is signalled at construction —
and the division by zero then *does* occur at runtime: the first `update`
raises it during cursor mapping. -/
theorem claim2_no_construction_check_counterexample :
    (init cfgBad).current_mode = "Idle" ∧
    update cfgBad (init cfgBad) (mkFrame2 (1/50) (2/5))
      = .error .zeroDivision := by
  refine ⟨rfl, ?_⟩
  unfold update
  rw [if_pos (by rw [mkFrame2_length]; norm_num)]
  have hmc : move_cursor cfgBad (init cfgBad).prev_cursor
      (index_tip (mkFrame2 (1/50) (2/5))).x
      (index_tip (mkFrame2 (1/50) (2/5))).y = none := by
    rw [move_cursor]
    rw [if_pos (Or.inl (by norm_num [cfgBad]))]
  rw [hmc]

/-- C2 amended: construction never validates anything.  A configuration whose
margin makes the active region exactly zero-wide or zero-high is accepted and
every `update` on a well-formed frame then raises the division-by-zero error
at the cursor-mapping step; with a non-degenerate active region `update`
succeeds for *every* threshold value (thresholds, including values ≤ 0, are
never validated either). -/
theorem claim2_runtime_zero_division_amended :
    (∀ (cfg : Config) (s : CtrlState) (hand : HandData),
      12 < hand.landmarks.length →
      (cfg.camera_width = 2 * cfg.margin ∨
        cfg.camera_height = 2 * cfg.margin) →
      update cfg s hand = .error .zeroDivision) ∧
    (∀ (cfg : Config) (s : CtrlState) (hand : HandData),
      12 < hand.landmarks.length →
      cfg.camera_width - cfg.margin - cfg.margin ≠ 0 →
      cfg.camera_height - cfg.margin - cfg.margin ≠ 0 →
      ∃ p, update cfg s hand = .ok p) := by
  constructor
  · intro cfg s hand hlen hdeg
    have hguard : cfg.camera_width - cfg.margin - cfg.margin = 0 ∨
        cfg.camera_height - cfg.margin - cfg.margin = 0 := by
      rcases hdeg with h | h
      · left; rw [h]; ring
      · right; rw [h]; ring
    unfold update
    rw [if_pos hlen]
    have hmc : move_cursor cfg s.prev_cursor
        (index_tip hand).x (index_tip hand).y = none := by
      rw [move_cursor, if_pos hguard]
    rw [hmc]
  · intro cfg s hand hlen hdx hdy
    unfold update
    rw [if_pos hlen, move_cursor_eq cfg s hand hdx hdy]
    exact ⟨_, rfl⟩

/-- Witness for the amended C2: both branches at concrete inputs. -/
theorem claim2_runtime_zero_division_amended_witness :
    (12 < (mkFrame2 0 0).landmarks.length ∧
      (cfgBad.camera_width = 2 * cfgBad.margin ∨
        cfgBad.camera_height = 2 * cfgBad.margin) ∧
      update cfgBad (init cfgBad) (mkFrame2 0 0) = .error .zeroDivision) ∧
    (cfg0.camera_width - cfg0.margin - cfg0.margin ≠ 0 ∧
      cfg0.camera_height - cfg0.margin - cfg0.margin ≠ 0 ∧
      ∃ p, update cfg0 (init cfg0) (mkFrame2 0 0) = .ok p) :=
  ⟨⟨by rw [mkFrame2_length]; norm_num, Or.inl (by norm_num [cfgBad]),
    claim2_runtime_zero_division_amended.1 cfgBad (init cfgBad) (mkFrame2 0 0)
      (by rw [mkFrame2_length]; norm_num) (Or.inl (by norm_num [cfgBad]))⟩,
   ⟨by norm_num [cfg0], by norm_num [cfg0],
    claim2_runtime_zero_division_amended.2 cfg0 (init cfg0) (mkFrame2 0 0)
      (by rw [mkFrame2_length]; norm_num) (by norm_num [cfg0])
      (by norm_num [cfg0])⟩⟩

/-- C3 counterexample: `frame13` is malformed in the claim's sense — it has
fewer than the expected 21 joints — yet `update` processes it successfully
instead of signalling an error. -/
theorem claim3_malformed_frame_counterexample :
    frame13.landmarks.length < 21 ∧
    ∃ p, update cfg0 (init cfg0) frame13 = .ok p := by
  exact ⟨by decide,
    ⟨_, update_char_no_scroll cfg0 (init cfg0) frame13 (by decide)
      (fun h => absurd (show (9 : ℝ)/10 < 1/2 from h.1) (by norm_num))
      (by norm_num [cfg0]) (by norm_num [cfg0])⟩⟩

/-- C3 amended: `update` signals the missing-landmark error (CPython's
`IndexError`) exactly when the frame has fewer than 13 landmarks — the largest
index the controller reads is 12.  A frame with 13-20 landmarks, although
shorter than the expected 21, is processed like a full frame; defaults are
never substituted for missing joints (the short frame raises instead). -/
theorem claim3_short_frame_error_amended :
    ∀ (cfg : Config) (s : CtrlState) (hand : HandData),
      (hand.landmarks.length < 13 →
        update cfg s hand = .error .badLandmarks) ∧
      (12 < hand.landmarks.length →
        update cfg s hand ≠ .error .badLandmarks) := by
  intro cfg s hand
  constructor
  · intro hlen
    unfold update
    rw [if_neg (by omega)]
  · intro hlen h
    unfold update at h
    rw [if_pos hlen] at h
    split at h
    · simp at h
    · simp at h

/-- Witness for the amended C3: the 5-landmark frame raises, the 13-landmark
frame does not. -/
theorem claim3_short_frame_error_amended_witness :
    (frame5.landmarks.length < 13 ∧
      update cfg0 (init cfg0) frame5 = .error .badLandmarks) ∧
    (12 < frame13.landmarks.length ∧
      update cfg0 (init cfg0) frame13 ≠ .error .badLandmarks) :=
  ⟨⟨by decide,
    (claim3_short_frame_error_amended cfg0 (init cfg0) frame5).1 (by decide)⟩,
   ⟨by decide,
    (claim3_short_frame_error_amended cfg0 (init cfg0) frame13).2 (by decide)⟩⟩

/-- C5: on every successful `update`, a non-zero scroll event implies the
scroll gate held (both fingers extended and left pinch distance above the
click threshold); whenever the gate is false the scroll history is cleared;
and a left pinch distance below the threshold forces a zero scroll delta (and
a cleared history) even if both fingers are extended. -/
theorem claim5_scroll_gate (cfg : Config) (s : CtrlState) (hand : HandData)
    (s' : CtrlState) (out : ControlOutput)
    (hupd : update cfg s hand = .ok (s', out)) :
    (out.scroll_delta ≠ 0 →
      index_extended hand ∧ middle_extended hand ∧
        cfg.left_pinch_threshold < left_pinch_dist hand) ∧
    (¬(index_extended hand ∧ middle_extended hand ∧
        cfg.left_pinch_threshold < left_pinch_dist hand) →
      s'.scroll_history = []) ∧
    (left_pinch_dist hand < cfg.left_pinch_threshold →
      out.scroll_delta = 0 ∧ s'.scroll_history = []) := by
  obtain ⟨-, hs', hout⟩ := update_ok_elim hupd
  subst hs' hout
  refine ⟨?_, ?_, ?_⟩
  · intro hnz
    by_contra hna
    exact hnz (if_neg (show ¬scroll_active cfg hand from hna))
  · intro hna
    exact if_neg (show ¬scroll_active cfg hand from hna)
  · intro hlt
    have hna : ¬scroll_active cfg hand :=
      fun h => absurd h.2.2 (not_lt.mpr (le_of_lt hlt))
    exact ⟨if_neg hna, if_neg hna⟩

/-- Witness for C5: a frame with both fingers extended but pinch distance
`0.02 < 0.035` — the gate is closed, so no scroll fires and the history is
cleared. -/
theorem claim5_scroll_gate_witness :
    ∃ s' out, update cfg0 (init cfg0) (mkScrollFrame (1/50)) = .ok (s', out) ∧
      left_pinch_dist (mkScrollFrame (1/50)) < cfg0.left_pinch_threshold ∧
      out.scroll_delta = 0 ∧ s'.scroll_history = [] := by
  have hupd := update_mkScrollFrame cfg0 (init cfg0) (1/50) (by norm_num)
    (by norm_num [cfg0]) (by norm_num [cfg0])
  have hdist : left_pinch_dist (mkScrollFrame (1/50)) <
      cfg0.left_pinch_threshold := by
    rw [left_pinch_dist_mkScrollFrame _ (by norm_num)]
    norm_num [cfg0]
  exact ⟨_, _, hupd, hdist,
    ((claim5_scroll_gate cfg0 _ _ _ _ hupd).2.2 hdist).1,
    ((claim5_scroll_gate cfg0 _ _ _ _ hupd).2.2 hdist).2⟩

/-- C6: the scroll history never grows beyond its capacity of 5; and on a
scroll-active frame the average fingertip height is appended to the history
even when the computed scroll amount is suppressed as noise
(`|amount| ≤ 1` emits a zero scroll delta). -/
theorem claim6_scroll_noise_suppression :
    (∀ (hist : List ℝ) (sens : ℤ) (iy my : ℝ), hist.length ≤ 5 →
      (handle_scroll hist sens iy my).1.length ≤ 5) ∧
    (∀ (cfg : Config) (s : CtrlState) (hand : HandData) (s' : CtrlState)
        (out : ControlOutput), update cfg s hand = .ok (s', out) →
      (index_extended hand ∧ middle_extended hand ∧
        cfg.left_pinch_threshold < left_pinch_dist hand) →
      s'.scroll_history = appendMax5 s.scroll_history
          (((index_tip hand).y + (middle_tip hand).y) / 2) ∧
      (|scroll_amount s.scroll_history cfg.scroll_sensitivity
          (index_tip hand).y (middle_tip hand).y| ≤ 1 →
        out.scroll_delta = 0) ∧
      (s.scroll_history.length ≤ 5 → s'.scroll_history.length ≤ 5)) := by
  constructor
  · intro hist sens iy my h
    rw [handle_scroll_fst]
    exact appendMax5_length _ _ h
  · intro cfg s hand s' out hupd hgate
    obtain ⟨-, hs', hout⟩ := update_ok_elim hupd
    subst hs' hout
    have hsa : scroll_active cfg hand := hgate
    refine ⟨?_, ?_, ?_⟩
    · dsimp only
      rw [if_pos hsa, handle_scroll_fst]
    · intro hle
      dsimp only
      rw [if_pos hsa, handle_scroll_snd]
      split
      · rfl
      · rw [if_neg (not_lt.mpr hle)]
    · intro hcap
      dsimp only
      rw [if_pos hsa, handle_scroll_fst]
      exact appendMax5_length _ _ hcap

/-- Witness for C6: scroll-active frame (distance `0.4 > 0.035`, both fingers
extended) from a state with history `[3/10]`; the appended average is `3/10`,
the delta is 0, the amount 0 is suppressed, yet the sample is appended. -/
theorem claim6_scroll_noise_suppression_witness :
    (([(3:ℝ)/10].length ≤ 5) ∧
      (handle_scroll [(3:ℝ)/10] cfg0.scroll_sensitivity (3/10) (3/10)).1.length
        ≤ 5) ∧
    ((index_extended (mkScrollFrame (2/5)) ∧
      middle_extended (mkScrollFrame (2/5)) ∧
      cfg0.left_pinch_threshold < left_pinch_dist (mkScrollFrame (2/5))) ∧
     |scroll_amount [(3:ℝ)/10] cfg0.scroll_sensitivity
        (index_tip (mkScrollFrame (2/5))).y
        (middle_tip (mkScrollFrame (2/5))).y| ≤ 1 ∧
     ∃ s' out, update cfg0 ⟨⟨960, 540⟩, [(3:ℝ)/10], false, false, "Idle"⟩
         (mkScrollFrame (2/5)) = .ok (s', out) ∧
       out.scroll_delta = 0 ∧
       s'.scroll_history = appendMax5 [(3:ℝ)/10]
         (((index_tip (mkScrollFrame (2/5))).y +
           (middle_tip (mkScrollFrame (2/5))).y) / 2)) := by
  have hupd := update_mkScrollFrame cfg0
    ⟨⟨960, 540⟩, [(3:ℝ)/10], false, false, "Idle"⟩ (2/5) (by norm_num)
    (by norm_num [cfg0]) (by norm_num [cfg0])
  have hgate : index_extended (mkScrollFrame (2/5)) ∧
      middle_extended (mkScrollFrame (2/5)) ∧
      cfg0.left_pinch_threshold < left_pinch_dist (mkScrollFrame (2/5)) :=
    ⟨(extended_mkScrollFrame _).1, (extended_mkScrollFrame _).2, by
      rw [left_pinch_dist_mkScrollFrame _ (by norm_num)]
      norm_num [cfg0]⟩
  have hamt : |scroll_amount [(3:ℝ)/10] cfg0.scroll_sensitivity
      (index_tip (mkScrollFrame (2/5))).y
      (middle_tip (mkScrollFrame (2/5))).y| ≤ 1 := by
    rw [index_tip_mkScrollFrame, middle_tip_mkScrollFrame]
    simp only [pt]
    norm_num [scroll_amount, appendMax5, truncInt]
  refine ⟨⟨by norm_num,
    claim6_scroll_noise_suppression.1 [(3:ℝ)/10] cfg0.scroll_sensitivity
      (3/10) (3/10) (by norm_num)⟩, hgate, hamt, ⟨_, _, hupd, ?_, ?_⟩⟩
  · exact ((claim6_scroll_noise_suppression.2 cfg0 _ _ _ _ hupd hgate).2.1 hamt)
  · exact (claim6_scroll_noise_suppression.2 cfg0 _ _ _ _ hupd hgate).1

/-- C7: once the post-append history has at least two samples, the emitted
scroll value is the raw amount `int((history[-2] - history[-1]) *
sensitivity * 100)` unless suppressed; and for the history `[0.50, 0.40]`
(fingers moved up) with any positive integer sensitivity the delta `0.1` is
positive, the raw amount equals `10 * sensitivity`, and the emitted scroll
amount is positive. -/
theorem claim7_scroll_sign (sens : ℤ) (hs : 0 < sens) :
    (∀ (hist : List ℝ) (iy my : ℝ),
      2 ≤ (appendMax5 hist ((iy + my) / 2)).length →
      (handle_scroll hist sens iy my).2 =
        if 1 < |scroll_amount hist sens iy my| then
          scroll_amount hist sens iy my
        else 0) ∧
    (handle_scroll [(1:ℝ)/2] sens (2/5) (2/5)).1 = [1/2, 2/5] ∧
    (0 : ℝ) < 1/2 - 2/5 ∧
    scroll_amount [(1:ℝ)/2] sens (2/5) (2/5) = 10 * sens ∧
    0 < (handle_scroll [(1:ℝ)/2] sens (2/5) (2/5)).2 := by
  have hamt : scroll_amount [(1:ℝ)/2] sens (2/5) (2/5) = 10 * sens := by
    rw [scroll_amount]
    have havg : ((2:ℝ)/5 + 2/5) / 2 = 2/5 := by norm_num
    rw [havg]
    have happ : appendMax5 [(1:ℝ)/2] (2/5) = [1/2, 2/5] := by
      rw [appendMax5, if_pos (by norm_num)]
      rfl
    rw [happ]
    have hgd : (([(1:ℝ)/2, 2/5].getD ([(1:ℝ)/2, 2/5].length - 2) 0 -
        [(1:ℝ)/2, 2/5].getD ([(1:ℝ)/2, 2/5].length - 1) 0)
        * (sens : ℝ) * 100) = ((10 * sens : ℤ) : ℝ) := by
      simp only [List.length_cons, List.length_nil]
      norm_num [List.getD]
      ring
    rw [hgd, truncInt, if_pos (by positivity), Int.floor_intCast]
  refine ⟨?_, ?_, by norm_num, hamt, ?_⟩
  · intro hist iy my hlen
    rw [handle_scroll_snd, if_neg (by omega)]
  · rw [handle_scroll_fst]
    have havg : ((2:ℝ)/5 + 2/5) / 2 = 2/5 := by norm_num
    rw [havg, appendMax5, if_pos (by norm_num)]
    rfl
  · have h2 : (handle_scroll [(1:ℝ)/2] sens (2/5) (2/5)).2
        = 10 * sens := by
      rw [handle_scroll_snd, hamt]
      have havg : ((2:ℝ)/5 + 2/5) / 2 = 2/5 := by norm_num
      rw [havg]
      have happ : appendMax5 [(1:ℝ)/2] (2/5) = [1/2, 2/5] := by
        rw [appendMax5, if_pos (by norm_num)]
        rfl
      rw [happ]
      rw [if_neg (by norm_num)]
      rw [if_pos (by rw [abs_of_pos (by positivity)]; omega)]
    rw [h2]
    positivity

/-- One rescaled axis of the cursor mapping stays inside `[0, S]` whenever the
active region is non-degenerate. -/
theorem map_axis_bounds (v m W S : ℝ) (h : 2 * m < W) (hS : 0 ≤ S) :
    0 ≤ (clamp v m (W - m) - m) / (W - m - m) * S ∧
    (clamp v m (W - m) - m) / (W - m - m) * S ≤ S := by
  have hd : 0 < W - m - m := by linarith
  have h1 : m ≤ clamp v m (W - m) := le_clamp _ _ _
  have h2 : clamp v m (W - m) ≤ W - m := clamp_le _ _ _ (by linarith)
  have hr0 : 0 ≤ (clamp v m (W - m) - m) / (W - m - m) :=
    div_nonneg (by linarith) hd.le
  have hr1 : (clamp v m (W - m) - m) / (W - m - m) ≤ 1 :=
    (div_le_one hd).mpr (by linarith)
  exact ⟨mul_nonneg hr0 hS, mul_le_of_le_one_left hS hr1⟩

theorem cursorTarget_mem (cfg : Config)
    (hmx : 2 * cfg.margin < cfg.camera_width)
    (hmy : 2 * cfg.margin < cfg.camera_height)
    (hsw : 0 ≤ cfg.screen_width) (hsh : 0 ≤ cfg.screen_height) (x y : ℝ) :
    0 ≤ (cursorTarget cfg x y).1 ∧
    (cursorTarget cfg x y).1 ≤ cfg.screen_width ∧
    0 ≤ (cursorTarget cfg x y).2 ∧
    (cursorTarget cfg x y).2 ≤ cfg.screen_height := by
  simp only [cursorTarget]
  obtain ⟨ha, hb⟩ := map_axis_bounds (x * cfg.camera_width) cfg.margin
    cfg.camera_width cfg.screen_width hmx hsw
  obtain ⟨hc, hd⟩ := map_axis_bounds (y * cfg.camera_height) cfg.margin
    cfg.camera_height cfg.screen_height hmy hsh
  exact ⟨ha, hb, hc, hd⟩

/-- A lerp with factor in `[0, 1]` between two points of `[0, W]` stays in
`[0, W]`. -/
theorem lerp_mem (a b W t : ℝ) (ha0 : 0 ≤ a) (haW : a ≤ W) (hb0 : 0 ≤ b)
    (hbW : b ≤ W) (ht0 : 0 ≤ t) (ht1 : t ≤ 1) :
    0 ≤ lerp a b t ∧ lerp a b t ≤ W := by
  rw [lerp]
  constructor
  · nlinarith [mul_nonneg hb0 ht0, mul_nonneg ha0 (sub_nonneg.mpr ht1)]
  · nlinarith [mul_nonneg (sub_nonneg.mpr hbW) ht0,
      mul_nonneg (sub_nonneg.mpr haW) (sub_nonneg.mpr ht1)]

/-- C4: with a valid configuration, the mapped cursor target of *any* landmark
input (including coordinates outside `[0,1]`) lies within
`[0, screen_width] x [0, screen_height]`; the initial cursor lies within those
bounds; and every successful `update` keeps the persisted cursor within
them. -/
theorem claim4_cursor_bounds (cfg : Config)
    (hmx : 2 * cfg.margin < cfg.camera_width)
    (hmy : 2 * cfg.margin < cfg.camera_height)
    (hf0 : 0 < cfg.smoothing_factor) (hf1 : cfg.smoothing_factor < 1)
    (hsw : 0 ≤ cfg.screen_width) (hsh : 0 ≤ cfg.screen_height) :
    (∀ x y : ℝ,
      0 ≤ (cursorTarget cfg x y).1 ∧
      (cursorTarget cfg x y).1 ≤ cfg.screen_width ∧
      0 ≤ (cursorTarget cfg x y).2 ∧
      (cursorTarget cfg x y).2 ≤ cfg.screen_height) ∧
    (0 ≤ (init cfg).prev_cursor.x ∧
      (init cfg).prev_cursor.x ≤ cfg.screen_width ∧
      0 ≤ (init cfg).prev_cursor.y ∧
      (init cfg).prev_cursor.y ≤ cfg.screen_height) ∧
    (∀ (s : CtrlState) (hand : HandData) (s' : CtrlState)
        (out : ControlOutput), update cfg s hand = .ok (s', out) →
      0 ≤ s.prev_cursor.x → s.prev_cursor.x ≤ cfg.screen_width →
      0 ≤ s.prev_cursor.y → s.prev_cursor.y ≤ cfg.screen_height →
      0 ≤ s'.prev_cursor.x ∧ s'.prev_cursor.x ≤ cfg.screen_width ∧
      0 ≤ s'.prev_cursor.y ∧ s'.prev_cursor.y ≤ cfg.screen_height) := by
  refine ⟨cursorTarget_mem cfg hmx hmy hsw hsh, ?_, ?_⟩
  · refine ⟨?_, ?_, ?_, ?_⟩
    · show (0:ℝ) ≤ cfg.screen_width / 2
      positivity
    · show cfg.screen_width / 2 ≤ cfg.screen_width
      linarith
    · show (0:ℝ) ≤ cfg.screen_height / 2
      positivity
    · show cfg.screen_height / 2 ≤ cfg.screen_height
      linarith
  · intro s hand s' out hupd hx0 hx1 hy0 hy1
    obtain ⟨-, hs', -⟩ := update_ok_elim hupd
    subst hs'
    obtain ⟨ht1, ht2, ht3, ht4⟩ := cursorTarget_mem cfg hmx hmy hsw hsh
      (index_tip hand).x (index_tip hand).y
    dsimp only [next_cursor]
    exact ⟨(lerp_mem _ _ _ _ hx0 hx1 ht1 ht2 hf0.le hf1.le).1,
      (lerp_mem _ _ _ _ hx0 hx1 ht1 ht2 hf0.le hf1.le).2,
      (lerp_mem _ _ _ _ hy0 hy1 ht3 ht4 hf0.le hf1.le).1,
      (lerp_mem _ _ _ _ hy0 hy1 ht3 ht4 hf0.le hf1.le).2⟩

/-- Witness for C4 at `cfg0`. -/
theorem claim4_cursor_bounds_witness :
    (2 * cfg0.margin < cfg0.camera_width ∧
     2 * cfg0.margin < cfg0.camera_height ∧
     0 < cfg0.smoothing_factor ∧ cfg0.smoothing_factor < 1 ∧
     0 ≤ cfg0.screen_width ∧ 0 ≤ cfg0.screen_height) ∧
    ((∀ x y : ℝ,
      0 ≤ (cursorTarget cfg0 x y).1 ∧
      (cursorTarget cfg0 x y).1 ≤ cfg0.screen_width ∧
      0 ≤ (cursorTarget cfg0 x y).2 ∧
      (cursorTarget cfg0 x y).2 ≤ cfg0.screen_height) ∧
    (0 ≤ (init cfg0).prev_cursor.x ∧
      (init cfg0).prev_cursor.x ≤ cfg0.screen_width ∧
      0 ≤ (init cfg0).prev_cursor.y ∧
      (init cfg0).prev_cursor.y ≤ cfg0.screen_height) ∧
    (∀ (s : CtrlState) (hand : HandData) (s' : CtrlState)
        (out : ControlOutput), update cfg0 s hand = .ok (s', out) →
      0 ≤ s.prev_cursor.x → s.prev_cursor.x ≤ cfg0.screen_width →
      0 ≤ s.prev_cursor.y → s.prev_cursor.y ≤ cfg0.screen_height →
      0 ≤ s'.prev_cursor.x ∧ s'.prev_cursor.x ≤ cfg0.screen_width ∧
      0 ≤ s'.prev_cursor.y ∧ s'.prev_cursor.y ≤ cfg0.screen_height)) :=
  ⟨⟨by norm_num [cfg0], by norm_num [cfg0], by norm_num [cfg0],
    by norm_num [cfg0], by norm_num [cfg0], by norm_num [cfg0]⟩,
   claim4_cursor_bounds cfg0 (by norm_num [cfg0]) (by norm_num [cfg0])
     (by norm_num [cfg0]) (by norm_num [cfg0]) (by norm_num [cfg0])
     (by norm_num [cfg0])⟩

theorem updateState_cursor (cfg : Config) (hand : HandData) (s : CtrlState)
    (hlen : 12 < hand.landmarks.length)
    (hdx : cfg.camera_width - cfg.margin - cfg.margin ≠ 0)
    (hdy : cfg.camera_height - cfg.margin - cfg.margin ≠ 0) :
    (updateState cfg hand s).prev_cursor = next_cursor cfg s hand := by
  obtain ⟨p, hp⟩ := update_ok_of_nondegenerate cfg s hand hlen hdx hdy
  have hp' : update cfg s hand = .ok (p.1, p.2) := hp
  obtain ⟨-, hs', -⟩ := update_ok_elim hp'
  have hps : updateState cfg hand s = p.1 := by
    unfold updateState
    rw [hp]
  rw [hps, hs']

/-- A real sequence that contracts by a fixed factor `r ∈ [0, 1)` each step is
non-increasing in absolute value and eventually below any positive bound. -/
theorem geom_decay (c : ℕ → ℝ) (r : ℝ) (hr0 : 0 ≤ r) (hr1 : r < 1)
    (hstep : ∀ n, c (n + 1) = r * c n) :
    (∀ n, |c (n + 1)| ≤ |c n|) ∧
    (∀ ε : ℝ, 0 < ε → ∃ N, ∀ n, N ≤ n → |c n| < ε) := by
  have hpow : ∀ n, c n = r ^ n * c 0 := by
    intro n
    induction n with
    | zero => rw [pow_zero, one_mul]
    | succ k ih => rw [hstep k, ih, pow_succ]; ring
  constructor
  · intro n
    rw [hstep n, abs_mul, abs_of_nonneg hr0]
    exact mul_le_of_le_one_left (abs_nonneg _) hr1.le
  · intro ε hε
    rcases eq_or_ne (c 0) 0 with h0 | h0
    · refine ⟨0, fun n _ => ?_⟩
      rw [hpow n, h0, mul_zero, abs_zero]
      exact hε
    · obtain ⟨N, hN⟩ :=
        exists_pow_lt_of_lt_one (div_pos hε (abs_pos.mpr h0)) hr1
      refine ⟨N, fun n hn => ?_⟩
      have hpn : r ^ n ≤ r ^ N := pow_le_pow_of_le_one hr0 hr1.le hn
      have hlt : r ^ n < ε / |c 0| := lt_of_le_of_lt hpn hN
      rw [hpow n, abs_mul, abs_of_nonneg (pow_nonneg hr0 n)]
      calc r ^ n * |c 0| < ε / |c 0| * |c 0| :=
            mul_lt_mul_of_pos_right hlt (abs_pos.mpr h0)
        _ = ε := div_mul_cancel₀ ε (abs_ne_zero.mpr h0)

/-- C8: feeding the same frame repeatedly, the remaining cursor error on each
axis is multiplied by `1 - smoothing_factor` every frame, so the cursor moves
monotonically toward the mapped target and gets within any `ε > 0` of it after
enough frames. -/
theorem claim8_smoothing_convergence (cfg : Config) (hand : HandData)
    (hlen : 12 < hand.landmarks.length)
    (hdx : cfg.camera_width - cfg.margin - cfg.margin ≠ 0)
    (hdy : cfg.camera_height - cfg.margin - cfg.margin ≠ 0)
    (hf0 : 0 < cfg.smoothing_factor) (hf1 : cfg.smoothing_factor < 1) :
    (∀ n : ℕ,
      (cursorTarget cfg (index_tip hand).x (index_tip hand).y).1 -
          (iterState cfg hand (n + 1)).prev_cursor.x =
        (1 - cfg.smoothing_factor) *
          ((cursorTarget cfg (index_tip hand).x (index_tip hand).y).1 -
            (iterState cfg hand n).prev_cursor.x) ∧
      (cursorTarget cfg (index_tip hand).x (index_tip hand).y).2 -
          (iterState cfg hand (n + 1)).prev_cursor.y =
        (1 - cfg.smoothing_factor) *
          ((cursorTarget cfg (index_tip hand).x (index_tip hand).y).2 -
            (iterState cfg hand n).prev_cursor.y)) ∧
    (∀ n : ℕ,
      |(cursorTarget cfg (index_tip hand).x (index_tip hand).y).1 -
          (iterState cfg hand (n + 1)).prev_cursor.x| ≤
        |(cursorTarget cfg (index_tip hand).x (index_tip hand).y).1 -
          (iterState cfg hand n).prev_cursor.x| ∧
      |(cursorTarget cfg (index_tip hand).x (index_tip hand).y).2 -
          (iterState cfg hand (n + 1)).prev_cursor.y| ≤
        |(cursorTarget cfg (index_tip hand).x (index_tip hand).y).2 -
          (iterState cfg hand n).prev_cursor.y|) ∧
    (∀ ε : ℝ, 0 < ε → ∃ N : ℕ, ∀ n : ℕ, N ≤ n →
      |(cursorTarget cfg (index_tip hand).x (index_tip hand).y).1 -
          (iterState cfg hand n).prev_cursor.x| < ε ∧
      |(cursorTarget cfg (index_tip hand).x (index_tip hand).y).2 -
          (iterState cfg hand n).prev_cursor.y| < ε) := by
  have hstep : ∀ n : ℕ, (iterState cfg hand (n + 1)).prev_cursor =
      next_cursor cfg (iterState cfg hand n) hand := by
    intro n
    simp only [iterState, Function.iterate_succ_apply']
    exact updateState_cursor cfg hand _ hlen hdx hdy
  have herrx : ∀ n : ℕ,
      (cursorTarget cfg (index_tip hand).x (index_tip hand).y).1 -
          (iterState cfg hand (n + 1)).prev_cursor.x =
        (1 - cfg.smoothing_factor) *
          ((cursorTarget cfg (index_tip hand).x (index_tip hand).y).1 -
            (iterState cfg hand n).prev_cursor.x) := by
    intro n
    rw [hstep n]
    simp only [next_cursor]
    rw [lerp]
    ring
  have herry : ∀ n : ℕ,
      (cursorTarget cfg (index_tip hand).x (index_tip hand).y).2 -
          (iterState cfg hand (n + 1)).prev_cursor.y =
        (1 - cfg.smoothing_factor) *
          ((cursorTarget cfg (index_tip hand).x (index_tip hand).y).2 -
            (iterState cfg hand n).prev_cursor.y) := by
    intro n
    rw [hstep n]
    simp only [next_cursor]
    rw [lerp]
    ring
  have hgx := geom_decay
    (fun n => (cursorTarget cfg (index_tip hand).x (index_tip hand).y).1 -
      (iterState cfg hand n).prev_cursor.x)
    (1 - cfg.smoothing_factor) (by linarith) (by linarith) herrx
  have hgy := geom_decay
    (fun n => (cursorTarget cfg (index_tip hand).x (index_tip hand).y).2 -
      (iterState cfg hand n).prev_cursor.y)
    (1 - cfg.smoothing_factor) (by linarith) (by linarith) herry
  refine ⟨fun n => ⟨herrx n, herry n⟩, fun n => ⟨hgx.1 n, hgy.1 n⟩, ?_⟩
  intro ε hε
  obtain ⟨N1, h1⟩ := hgx.2 ε hε
  obtain ⟨N2, h2⟩ := hgy.2 ε hε
  exact ⟨max N1 N2, fun n hn =>
    ⟨h1 n (le_trans (le_max_left _ _) hn),
     h2 n (le_trans (le_max_right _ _) hn)⟩⟩

/-- Witness for C8 at `cfg0` with the fixed frame `mkFrame2 0 (2/5)`. -/
theorem claim8_smoothing_convergence_witness :
    (12 < (mkFrame2 0 (2/5)).landmarks.length ∧
     cfg0.camera_width - cfg0.margin - cfg0.margin ≠ 0 ∧
     cfg0.camera_height - cfg0.margin - cfg0.margin ≠ 0 ∧
     0 < cfg0.smoothing_factor ∧ cfg0.smoothing_factor < 1) ∧
    (∀ ε : ℝ, 0 < ε → ∃ N : ℕ, ∀ n : ℕ, N ≤ n →
      |(cursorTarget cfg0 (index_tip (mkFrame2 0 (2/5))).x
          (index_tip (mkFrame2 0 (2/5))).y).1 -
        (iterState cfg0 (mkFrame2 0 (2/5)) n).prev_cursor.x| < ε ∧
      |(cursorTarget cfg0 (index_tip (mkFrame2 0 (2/5))).x
          (index_tip (mkFrame2 0 (2/5))).y).2 -
        (iterState cfg0 (mkFrame2 0 (2/5)) n).prev_cursor.y| < ε) :=
  ⟨⟨by rw [mkFrame2_length]; norm_num, by norm_num [cfg0], by norm_num [cfg0],
    by norm_num [cfg0], by norm_num [cfg0]⟩,
   (claim8_smoothing_convergence cfg0 (mkFrame2 0 (2/5))
     (by rw [mkFrame2_length]; norm_num) (by norm_num [cfg0])
     (by norm_num [cfg0]) (by norm_num [cfg0]) (by norm_num [cfg0])).2.2⟩

/-- Witness for C7 at the configured sensitivity 35. -/
theorem claim7_scroll_sign_witness :
    (0 < (35 : ℤ)) ∧
    ((∀ (hist : List ℝ) (iy my : ℝ),
      2 ≤ (appendMax5 hist ((iy + my) / 2)).length →
      (handle_scroll hist 35 iy my).2 =
        if 1 < |scroll_amount hist 35 iy my| then scroll_amount hist 35 iy my
        else 0) ∧
    (handle_scroll [(1:ℝ)/2] 35 (2/5) (2/5)).1 = [1/2, 2/5] ∧
    (0 : ℝ) < 1/2 - 2/5 ∧
    scroll_amount [(1:ℝ)/2] 35 (2/5) (2/5) = 10 * 35 ∧
    0 < (handle_scroll [(1:ℝ)/2] 35 (2/5) (2/5)).2) :=
  ⟨by norm_num, claim7_scroll_sign 35 (by norm_num)⟩

end

end NoMice
